import Mathlib

/-
Shallow embedding of the opti-cmp-client library (TypeScript) and proofs
about it.  The embedding covers:
  - a model of runtime JavaScript values as they appear after JSON.parse,
    including undefined, null, and property access that throws a TypeError
    on null or undefined receivers;
  - the OAuth client (src/oauth/CMPOAuthClient.ts): getAccessToken,
    hasCachedToken, clearCache, with the token cache threaded explicitly
    and the outcome of the token HTTP request supplied by an environment;
    each call returns the number of network fetches it issued (0 or 1);
  - the API client (src/client/CMPClient.ts): acknowledgePreview and
    submitPreviewCompletion; the HTTP request itself is abstracted by an
    environment holding its outcome (the request URL and JSON body do not
    influence any behavior proved here);
  - the webhook handler (src/webhook/CMPWebhookHandler.ts):
    parseWebhookPayload, generatePreviewUrls, handleWebhook, with the host
    JSON.parse modelled as an environment function returning none when the
    host parser would throw;
  - the constructor validation of all three components.
Times are integers in milliseconds, as produced by Date.now().
-/

namespace OptiCmp

/-- Model of a runtime JavaScript value (the possible results of
JSON.parse, plus undefined as produced by missing-property access). -/
inductive JsValue : Type where
  | undefined : JsValue
  | null : JsValue
  | bool : Bool → JsValue
  | num : Int → JsValue
  | str : String → JsValue
  | arr : List JsValue → JsValue
  | obj : List (String × JsValue) → JsValue

/-- Model of the CMPError class from src/types/index.ts: a message, an
optional numeric statusCode and an optional details string. -/
structure CMPErr where
  message : String
  statusCode : Option Nat
  details : Option String

/-- Model of a thrown JavaScript exception: a CMPError, a plain Error
carrying a message (e.g. a TypeError or a network failure), or a thrown
value that is not an Error instance at all. -/
inductive JSError : Type where
  | cmp : CMPErr → JSError
  | err : String → JSError
  | nonError : JSError

/-- Model of a fetch Response as consumed by the API client: the ok flag,
the numeric status, and the body text read on failure. -/
structure HttpResp where
  ok : Bool
  status : Nat
  bodyText : String

/-- Model of the token endpoint Response: ok flag, status, failure body
text, and the two JSON fields the client reads on success.  A missing or
falsy access_token is modelled as the empty string and a missing or falsy
expires_in as 0, matching the falsiness test in the source. -/
structure TokenHttpResp where
  ok : Bool
  status : Nat
  bodyText : String
  access_token : String
  expires_in : Int

/-- Model of the TokenCache interface: access token plus expiry timestamp
in milliseconds. -/
structure TokenCache where
  accessToken : String
  expiresAt : Int

/-- Embedding of the cache-miss path of CMPOAuthClient.getAccessToken:
issue the token request (outcome supplied by fetch), fail on a non-ok
response or on a falsy access_token or expires_in, otherwise cache the
token with a 300 second buffer subtracted from expires_in, converted to
milliseconds.  The final component counts network fetches (always 1 on
this path). -/
def fetchToken (st : Option TokenCache) (now : Int)
    (fetch : Except JSError TokenHttpResp) :
    Except JSError String × Option TokenCache × Nat :=
  match fetch with
  | .error e => (.error e, st, 1)
  | .ok r =>
    if !r.ok then
      (.error (.cmp ⟨"Failed to obtain access token", some r.status, some r.bodyText⟩), st, 1)
    else if r.access_token = "" ∨ r.expires_in = 0 then
      (.error (.cmp ⟨"Invalid token response: missing access_token or expires_in", none, none⟩),
        st, 1)
    else
      (.ok r.access_token, some ⟨r.access_token, now + (r.expires_in - 300) * 1000⟩, 1)

/-- Embedding of CMPOAuthClient.getAccessToken: return the cached token
when now < expiresAt, otherwise fetch a new one.  The final component
counts network fetches issued by this call. -/
def getAccessToken (st : Option TokenCache) (now : Int)
    (fetch : Except JSError TokenHttpResp) :
    Except JSError String × Option TokenCache × Nat :=
  match st with
  | some c => if now < c.expiresAt then (.ok c.accessToken, st, 0) else fetchToken st now fetch
  | none => fetchToken st now fetch

/-- Embedding of CMPOAuthClient.hasCachedToken: a cache entry exists and
now < expiresAt. -/
def hasCachedToken (st : Option TokenCache) (now : Int) : Bool :=
  match st with
  | some c => decide (now < c.expiresAt)
  | none => false

/-- Embedding of CMPOAuthClient.clearCache: the cache becomes empty. -/
def clearCache (_st : Option TokenCache) : Option TokenCache :=
  none

/-- Lookup of a field in the field list of a JavaScript object. -/
def lookupField : List (String × JsValue) → String → Option JsValue
  | [], _ => none
  | (k, v) :: rest, name => if k = name then some v else lookupField rest name

/-- Plain property access v.name: throws a TypeError when the receiver is
null or undefined, yields undefined for a missing field or a primitive
receiver. -/
def getProp (v : JsValue) (name : String) : Except JSError JsValue :=
  match v with
  | .null => .error (.err ("Cannot read properties of null (reading " ++ name ++ ")"))
  | .undefined => .error (.err ("Cannot read properties of undefined (reading " ++ name ++ ")"))
  | .obj fields => .ok ((lookupField fields name).getD .undefined)
  | _ => .ok .undefined

/-- Optional chaining v?.name: yields undefined instead of throwing when
the receiver is null or undefined. -/
def optProp (v : JsValue) (name : String) : JsValue :=
  match v with
  | .null => .undefined
  | .undefined => .undefined
  | .obj fields => (lookupField fields name).getD .undefined
  | _ => .undefined

/-- Optional index access v?.[i]. -/
def optIndex (v : JsValue) (i : Nat) : JsValue :=
  match v with
  | .null => .undefined
  | .undefined => .undefined
  | .arr xs => (xs.get? i).getD .undefined
  | .obj fields => (lookupField fields (toString i)).getD .undefined
  | _ => .undefined

mutual

/-- JavaScript string conversion as performed by template literals. -/
def toJsString : JsValue → String
  | .undefined => "undefined"
  | .null => "null"
  | .bool b => if b then "true" else "false"
  | .num n => toString n
  | .str s => s
  | .obj _ => "[object Object]"
  | .arr xs => arrJoin xs

/-- Array stringification: elements joined by commas, with null and
undefined elements rendered as the empty string. -/
def arrJoin : List JsValue → String
  | [] => ""
  | x :: xs =>
    let hd := match x with
      | .null => ""
      | .undefined => ""
      | v => toJsString v
    match xs with
    | [] => hd
    | _ => hd ++ "," ++ arrJoin xs

end

/-- JavaScript falsiness of a runtime value. -/
def falsy : JsValue → Bool
  | .undefined => true
  | .null => true
  | .bool b => !b
  | .num n => n == 0
  | .str s => s == ""
  | .arr _ => false
  | .obj _ => false

/-- Model of the PreviewRequest record: the five values extracted from the
webhook payload (arbitrary runtime values before validation). -/
structure PreviewRequest where
  contentId : JsValue
  versionId : JsValue
  previewId : JsValue
  updatedBy : JsValue
  contentHash : JsValue

/-- Field extraction of CMPWebhookHandler.parseWebhookPayload: the plain
access payload.data (which throws on null or undefined), then the
optional chains for the five fields. -/
def extractFields (payload : JsValue) : Except JSError PreviewRequest :=
  match getProp payload "data" with
  | .error e => .error e
  | .ok data =>
    let structuredContent := optIndex (optProp (optProp data "assets") "structured_contents") 0
    .ok ⟨optProp structuredContent "id",
         optProp structuredContent "version_id",
         optProp data "preview_id",
         optProp (optProp structuredContent "content_body") "updated_by",
         optProp (optProp (optProp structuredContent "content_body") "fields_version")
           "content_hash"⟩

/-- The validation test of parseWebhookPayload: some extracted field is
falsy. -/
def anyMissing (r : PreviewRequest) : Bool :=
  falsy r.contentId || falsy r.versionId || falsy r.previewId ||
    falsy r.updatedBy || falsy r.contentHash

/-- The template literal passed as the details argument of the CMPError
thrown by parseWebhookPayload, echoing all five extracted values. -/
def echoString (c v p u h : JsValue) : String :=
  "contentId=" ++ toJsString c ++ ", versionId=" ++ toJsString v ++
    ", previewId=" ++ toJsString p ++ ", updatedBy=" ++ toJsString u ++
    ", contentHash=" ++ toJsString h

/-- Embedding of CMPWebhookHandler.parseWebhookPayload: extract the five
fields and throw a CMPError with message
"Missing required fields in webhook payload", statusCode 400 and the echo
string as details when any field is falsy. -/
def parseWebhookPayload (payload : JsValue) : Except JSError PreviewRequest :=
  match extractFields payload with
  | .error e => .error e
  | .ok r =>
    if anyMissing r then
      .error (.cmp ⟨"Missing required fields in webhook payload", some 400,
        some (echoString r.contentId r.versionId r.previewId r.updatedBy r.contentHash)⟩)
    else
      .ok r

/-- JavaScript object assignment m[k] = v on a string-keyed object: an
existing key keeps its position and gets the new value, a new key is
appended. -/
def objInsert (m : List (String × String)) (k v : String) : List (String × String) :=
  if m.any (fun p => decide (p.1 = k)) then m.map (fun p => if p.1 = k then (k, v) else p)
  else m ++ [(k, v)]

/-- Property lookup on the keyed-previews object. -/
def lookupKP : List (String × String) → String → Option String
  | [], _ => none
  | (k, v) :: rest, name => if k = name then some v else lookupKP rest name

/-- The default preview type list of the CMPWebhookHandler constructor. -/
def defaultPreviewTypes : List String :=
  ["default", "mobile", "desktop", "tablet", "signage"]

/-- Embedding of CMPWebhookHandler.generatePreviewUrls: the for loop over
the configured preview types, assigning each type its URL. -/
def generatePreviewUrls (previewTypes : List String) (previewUrl contentId : String) :
    List (String × String) :=
  previewTypes.foldl
    (fun acc t => objInsert acc t (previewUrl ++ "/preview/" ++ t ++ "/" ++ contentId)) []

/-- Model of the CMPOAuthConfig interface. -/
structure CMPOAuthConfig where
  clientId : String
  clientSecret : String
  authServerUrl : String

/-- Model of the CMPClientConfig interface. -/
structure CMPClientConfig extends CMPOAuthConfig where
  apiBaseUrl : String

/-- Model of the CMPWebhookConfig interface.  previewTypes is none when
the field is absent or otherwise falsy; an explicitly supplied array
(truthy in JavaScript, even when empty) is some. -/
structure CMPWebhookConfig extends CMPClientConfig where
  previewUrl : String
  previewTypes : Option (List String)

/-- Embedding of the CMPOAuthClient constructor validation:
each required field is checked against falsiness (empty string). -/
def mkOAuthClient (config : CMPOAuthConfig) : Except JSError Unit :=
  if config.clientId = "" then .error (.err "clientId is required")
  else if config.clientSecret = "" then .error (.err "clientSecret is required")
  else if config.authServerUrl = "" then .error (.err "authServerUrl is required")
  else .ok ()

/-- Embedding of the CMPClient constructor: checks apiBaseUrl, then
constructs the nested CMPOAuthClient, which checks its own fields. -/
def mkClient (config : CMPClientConfig) : Except JSError Unit :=
  if config.apiBaseUrl = "" then .error (.err "apiBaseUrl is required")
  else mkOAuthClient config.toCMPOAuthConfig

/-- The state a successfully constructed CMPWebhookHandler carries:
the preview base URL and the resolved preview type list. -/
structure HandlerState where
  previewUrl : String
  previewTypes : List String

/-- Embedding of the CMPWebhookHandler constructor: checks previewUrl,
constructs the nested CMPClient, then resolves previewTypes with the
JavaScript or-default (a falsy previewTypes field yields the default
list; an explicitly supplied array, even empty, is kept). -/
def mkWebhookHandler (config : CMPWebhookConfig) : Except JSError HandlerState :=
  if config.previewUrl = "" then .error (.err "previewUrl is required")
  else
    match mkClient config.toCMPClientConfig with
    | .error e => .error e
    | .ok _ => .ok ⟨config.previewUrl, config.previewTypes.getD defaultPreviewTypes⟩

/-- Environment of one API-client HTTP call: the clock value used by the
token fetch, the outcome of the token HTTP request (should one be
issued), and the outcome of the API HTTP request itself. -/
structure CallEnv where
  now : Int
  tokenFetch : Except JSError TokenHttpResp
  http : Except JSError HttpResp

/-- Common shape of the two API-client calls: obtain a token through
getAccessToken, perform the HTTP request, and throw a CMPError carrying
the given message, the response status and the body text on a non-ok
response.  The request URL and JSON body are abstracted away: only the
response outcome in the environment matters. -/
def apiCall (errMessage : String) (st : Option TokenCache) (env : CallEnv) :
    Except JSError Unit × Option TokenCache :=
  match getAccessToken st env.now env.tokenFetch with
  | (.error e, st1, _) => (.error e, st1)
  | (.ok _, st1, _) =>
    match env.http with
    | .error e => (.error e, st1)
    | .ok r =>
      if !r.ok then
        (.error (.cmp ⟨errMessage, some r.status, some r.bodyText⟩), st1)
      else
        (.ok (), st1)

/-- Embedding of CMPClient.acknowledgePreview (outcome behavior). -/
def acknowledgePreview (st : Option TokenCache) (env : CallEnv) :
    Except JSError Unit × Option TokenCache :=
  apiCall "Failed to acknowledge preview" st env

/-- Embedding of CMPClient.submitPreviewCompletion (outcome behavior). -/
def submitPreviewCompletion (st : Option TokenCache) (env : CallEnv) :
    Except JSError Unit × Option TokenCache :=
  apiCall "Failed to submit preview completion" st env

/-- The data record of a successful WebhookHandlerResult. -/
structure WebhookData where
  contentId : JsValue
  versionId : JsValue
  previewId : JsValue
  keyedPreviews : List (String × String)

/-- Model of the WebhookHandlerResult interface. -/
structure WebhookHandlerResult where
  success : Bool
  data : Option WebhookData
  error : Option String
  status : Nat

/-- The JavaScript expression error.statusCode || 500: a missing or zero
statusCode falls back to 500. -/
def statusOrDefault : Option Nat → Nat
  | some s => if s = 0 then 500 else s
  | none => 500

/-- Embedding of the catch block of handleWebhook: a CMPError is reported
with its message and statusCode || 500; any other Error instance with its
message and 500; a thrown non-Error value as "Unknown error" and 500. -/
def catchWebhookError : JSError → WebhookHandlerResult
  | .cmp e => ⟨false, none, some e.message, statusOrDefault e.statusCode⟩
  | .err m => ⟨false, none, some m, 500⟩
  | .nonError => ⟨false, none, some "Unknown error", 500⟩

/-- The payload argument of handleWebhook: a raw string or an
already-parsed value. -/
inductive WebhookInput : Type where
  | str : String → WebhookInput
  | obj : JsValue → WebhookInput

/-- Environment of one handleWebhook run: the host JSON.parse (none
models a parse exception) and the environments of the acknowledge and
completion calls. -/
structure WebhookEnv where
  parseJson : String → Option JsValue
  ackCall : CallEnv
  completeCall : CallEnv

/-- The body of handleWebhook after payload parsing: extract and validate
fields, acknowledge, generate URLs, submit completion.  Besides the
try-block outcome it returns whether submitPreviewCompletion was invoked
and the final token cache. -/
def handleParsed (h : HandlerState) (env : WebhookEnv) (st : Option TokenCache)
    (v : JsValue) :
    Except JSError WebhookHandlerResult × Bool × Option TokenCache :=
  match parseWebhookPayload v with
  | .error e => (.error e, false, st)
  | .ok pr =>
    match acknowledgePreview st env.ackCall with
    | (.error e, st1) => (.error e, false, st1)
    | (.ok _, st1) =>
      let keyedPreviews := generatePreviewUrls h.previewTypes h.previewUrl
        (toJsString pr.contentId)
      match submitPreviewCompletion st1 env.completeCall with
      | (.error e, st2) => (.error e, true, st2)
      | (.ok _, st2) =>
        (.ok ⟨true, some ⟨pr.contentId, pr.versionId, pr.previewId, keyedPreviews⟩,
          none, 200⟩, true, st2)

/-- The try block of handleWebhook: the string-payload checks (empty
string, unparseable JSON) return failure results directly; otherwise the
parsed value flows into handleParsed. -/
def handleWebhookTry (h : HandlerState) (env : WebhookEnv) (st : Option TokenCache)
    (payload : WebhookInput) :
    Except JSError WebhookHandlerResult × Bool × Option TokenCache :=
  match payload with
  | .str s =>
    if s = "" then (.ok ⟨false, none, some "Empty payload", 400⟩, false, st)
    else
      match env.parseJson s with
      | none => (.ok ⟨false, none, some "Invalid JSON payload", 400⟩, false, st)
      | some v => handleParsed h env st v
  | .obj v => handleParsed h env st v

/-- Embedding of CMPWebhookHandler.handleWebhook: the try block with its
catch mapping every thrown exception to a structured failure result. -/
def handleWebhook (h : HandlerState) (env : WebhookEnv) (st : Option TokenCache)
    (payload : WebhookInput) :
    WebhookHandlerResult × Bool × Option TokenCache :=
  match handleWebhookTry h env st payload with
  | (.ok r, inv, st2) => (r, inv, st2)
  | (.error e, inv, st2) => (catchWebhookError e, inv, st2)

/-- Helper for substring tests: the second list occurs at the head of the
first. -/
def listStartsWith : List Char → List Char → Bool
  | _, [] => true
  | [], _ :: _ => false
  | a :: as, b :: bs => a == b && listStartsWith as bs

/-- Helper for substring tests on character lists. -/
def hasSubAux : List Char → List Char → Bool
  | [], pat => match pat with | [] => true | _ => false
  | c :: rest, pat => listStartsWith (c :: rest) pat || hasSubAux rest pat

/-- Decidable substring test on strings. -/
def strContainsSub (s pat : String) : Bool :=
  hasSubAux s.data pat.data

/-- Concrete well-formed webhook payload used by witnesses. -/
def goodPayload : JsValue :=
  .obj [("data", .obj [
    ("preview_id", .str "p1"),
    ("assets", .obj [("structured_contents", .arr [
      .obj [("id", .str "c1"), ("version_id", .str "v1"),
            ("content_body", .obj [("updated_by", .str "u1"),
                 ("fields_version", .obj [("content_hash", .str "h1")])])]])])])]

/-- Concrete webhook payload whose fields_version object is missing the
content_hash field; the other four fields are present. -/
def missingHashPayload : JsValue :=
  .obj [("data", .obj [
    ("preview_id", .str "p1"),
    ("assets", .obj [("structured_contents", .arr [
      .obj [("id", .str "c1"), ("version_id", .str "v1"),
            ("content_body", .obj [("updated_by", .str "u1"),
                 ("fields_version", .obj [])])]])])])]

/-- Concrete successful token endpoint response used by witnesses. -/
def tokResp : TokenHttpResp := ⟨true, 200, "", "tok", 3600⟩

/-- Concrete handler state used by witnesses. -/
def h0 : HandlerState := ⟨"https://prev", defaultPreviewTypes⟩

/-- Concrete environment in which the acknowledge endpoint answers
HTTP 403 with body "forbidden" and JSON parsing of any string fails. -/
def env403 : WebhookEnv :=
  ⟨fun _ => none, ⟨0, .ok tokResp, .ok ⟨false, 403, "forbidden"⟩⟩,
    ⟨0, .ok tokResp, .ok ⟨true, 200, ""⟩⟩⟩

/-- Concrete environment in which the token fetch of the acknowledge call
rejects with a plain (non-CMPError) network error. -/
def envNetErr : WebhookEnv :=
  ⟨fun _ => none, ⟨0, .error (.err "network down"), .ok ⟨true, 200, ""⟩⟩,
    ⟨0, .ok tokResp, .ok ⟨true, 200, ""⟩⟩⟩

/-- Concrete configuration supplying an explicitly empty previewTypes
list. -/
def cfgEmptyTypes : CMPWebhookConfig := ⟨⟨⟨"i", "s", "a"⟩, "b"⟩, "prev", some []⟩

/-- A cache-missing getAccessToken call with a well-formed successful
response caches the token with the 300-second buffer (in milliseconds)
and counts one fetch. -/
lemma getAccessToken_miss (st : Option TokenCache) (now : Int) (r : TokenHttpResp)
    (hmiss : hasCachedToken st now = false) (hok : r.ok = true)
    (htok : r.access_token ≠ "") (hexp : r.expires_in ≠ 0) :
    getAccessToken st now (.ok r)
      = (.ok r.access_token, some ⟨r.access_token, now + (r.expires_in - 300) * 1000⟩, 1) := by
  have hfetch : fetchToken st now (.ok r)
      = (.ok r.access_token, some ⟨r.access_token, now + (r.expires_in - 300) * 1000⟩, 1) := by
    unfold fetchToken
    simp [hok, htok, hexp]
  cases st with
  | none => simpa [getAccessToken] using hfetch
  | some c =>
    have hlt : ¬ now < c.expiresAt := by simpa [hasCachedToken] using hmiss
    simpa [getAccessToken, hlt] using hfetch

/-- Every fetchToken outcome counts exactly one fetch. -/
lemma fetchToken_count (st : Option TokenCache) (now : Int)
    (f : Except JSError TokenHttpResp) : (fetchToken st now f).2.2 = 1 := by
  unfold fetchToken
  rcases f with e | r
  · rfl
  · dsimp only
    split
    · rfl
    · split
      · rfl
      · rfl

/-- The catch block always produces a failure result carrying an error
message. -/
lemma catchWebhookError_shape (e : JSError) :
    (catchWebhookError e).success = false ∧ (catchWebhookError e).error ≠ none := by
  cases e <;> simp [catchWebhookError]

/-- A non-exceptional handleParsed outcome is exactly the success result
built from the parsed request and the generated preview URLs. -/
lemma handleParsed_ok (h : HandlerState) (env : WebhookEnv) (st : Option TokenCache)
    (v : JsValue) (r : WebhookHandlerResult) (inv : Bool) (st2 : Option TokenCache)
    (hr : handleParsed h env st v = (.ok r, inv, st2)) :
    ∃ pr : PreviewRequest, parseWebhookPayload v = .ok pr ∧
      r = ⟨true, some ⟨pr.contentId, pr.versionId, pr.previewId,
        generatePreviewUrls h.previewTypes h.previewUrl (toJsString pr.contentId)⟩,
        none, 200⟩ := by
  unfold handleParsed at hr
  split at hr
  · simp at hr
  next pr hparse =>
    split at hr
    · simp at hr
    next st1 hack =>
      split at hr
      · simp at hr
      next st2x hcomp =>
        refine ⟨pr, hparse, ?_⟩
        simp only [Prod.mk.injEq, Except.ok.injEq] at hr
        exact hr.1.symm

/-- Every non-exceptional try-block outcome is one of the two string
validation failures or the success result. -/
lemma handleWebhookTry_ok (h : HandlerState) (env : WebhookEnv) (st : Option TokenCache)
    (payload : WebhookInput) (r : WebhookHandlerResult) (inv : Bool)
    (st2 : Option TokenCache)
    (hr : handleWebhookTry h env st payload = (.ok r, inv, st2)) :
    r = ⟨false, none, some "Empty payload", 400⟩ ∨
    r = ⟨false, none, some "Invalid JSON payload", 400⟩ ∨
    ∃ pr : PreviewRequest,
      r = ⟨true, some ⟨pr.contentId, pr.versionId, pr.previewId,
        generatePreviewUrls h.previewTypes h.previewUrl (toJsString pr.contentId)⟩,
        none, 200⟩ := by
  cases payload with
  | str s =>
    simp only [handleWebhookTry] at hr
    split at hr
    · simp only [Prod.mk.injEq, Except.ok.injEq] at hr
      exact Or.inl hr.1.symm
    · split at hr
      · simp only [Prod.mk.injEq, Except.ok.injEq] at hr
        exact Or.inr (Or.inl hr.1.symm)
      next v hv =>
        obtain ⟨pr, _, hpr⟩ := handleParsed_ok h env st v r inv st2 hr
        exact Or.inr (Or.inr ⟨pr, hpr⟩)
  | obj v =>
    simp only [handleWebhookTry] at hr
    obtain ⟨pr, _, hpr⟩ := handleParsed_ok h env st v r inv st2 hr
    exact Or.inr (Or.inr ⟨pr, hpr⟩)

/-- A successful handleWebhook result carries exactly the data record
built from the parsed request and the generated preview URLs. -/
lemma handleWebhook_success_data (h : HandlerState) (env : WebhookEnv)
    (st : Option TokenCache) (payload : WebhookInput) (res : WebhookHandlerResult)
    (inv : Bool) (st2 : Option TokenCache)
    (hres : handleWebhook h env st payload = (res, inv, st2))
    (hsucc : res.success = true) :
    ∃ pr : PreviewRequest, res.data = some ⟨pr.contentId, pr.versionId, pr.previewId,
      generatePreviewUrls h.previewTypes h.previewUrl (toJsString pr.contentId)⟩ := by
  unfold handleWebhook at hres
  rcases hTry : handleWebhookTry h env st payload with ⟨out, inv1, st3⟩
  rw [hTry] at hres
  cases out with
  | ok r =>
    simp only [Prod.mk.injEq] at hres
    rcases handleWebhookTry_ok h env st payload r inv1 st3 hTry with h1 | h1 | ⟨pr, h1⟩
    · rw [← hres.1, h1] at hsucc; simp at hsucc
    · rw [← hres.1, h1] at hsucc; simp at hsucc
    · exact ⟨pr, by rw [← hres.1, h1]⟩
  | error e =>
    simp only [Prod.mk.injEq] at hres
    have := (catchWebhookError_shape e).1
    rw [← hres.1] at hsucc
    rw [hsucc] at this
    simp at this

/-- Overwriting the value at key k does not change the key under which an
entry is found: lookup of k yields the new value when k was present. -/
lemma lookupKP_map_self (m : List (String × String)) (k v : String) :
    lookupKP (m.map (fun p => if p.1 = k then (k, v) else p)) k
      = (lookupKP m k).map (fun _ => v) := by
  induction m with
  | nil => rfl
  | cons a rest ih =>
    rcases a with ⟨ka, va⟩
    simp only [List.map_cons]
    by_cases h : ka = k
    · rw [if_pos (show (ka, va).1 = k from h)]
      subst h
      simp [lookupKP]
    · rw [if_neg (show ¬ (ka, va).1 = k from h)]
      simp [lookupKP, h, ih]

/-- Overwriting the value at key k leaves lookups of other keys
unchanged. -/
lemma lookupKP_map_other (m : List (String × String)) (k v q : String) (hq : q ≠ k) :
    lookupKP (m.map (fun p => if p.1 = k then (k, v) else p)) q = lookupKP m q := by
  induction m with
  | nil => rfl
  | cons a rest ih =>
    rcases a with ⟨ka, va⟩
    simp only [List.map_cons]
    by_cases h : ka = k
    · rw [if_pos (show (ka, va).1 = k from h)]
      subst h
      have hne : ka ≠ q := Ne.symm hq
      simp [lookupKP, hne, ih]
    · rw [if_neg (show ¬ (ka, va).1 = k from h)]
      by_cases h2 : ka = q
      · subst h2
        simp [lookupKP]
      · simp [lookupKP, h2, ih]

/-- A key on which the membership test fails is not found by lookup. -/
lemma lookupKP_any_none (m : List (String × String)) (k : String)
    (h : m.any (fun p => decide (p.1 = k)) = false) : lookupKP m k = none := by
  induction m with
  | nil => rfl
  | cons a rest ih =>
    rcases a with ⟨ka, va⟩
    simp only [List.any_cons, Bool.or_eq_false_iff, decide_eq_false_iff_not] at h
    simp only [lookupKP, h.1, if_false]
    exact ih (by simpa using h.2)

/-- A key on which the membership test succeeds is found by lookup. -/
lemma lookupKP_any_some (m : List (String × String)) (k : String)
    (h : m.any (fun p => decide (p.1 = k)) = true) : (lookupKP m k).isSome = true := by
  induction m with
  | nil => simp at h
  | cons a rest ih =>
    rcases a with ⟨ka, va⟩
    simp only [List.any_cons, Bool.or_eq_true, decide_eq_true_eq] at h
    by_cases h2 : ka = k
    · simp [lookupKP, h2]
    · simp only [lookupKP, h2, if_false]
      rcases h with h | h
      · exact absurd h h2
      · exact ih (by simpa using h)

/-- Lookup distributes over appending: the left object wins. -/
lemma lookupKP_append (m1 m2 : List (String × String)) (q : String) :
    lookupKP (m1 ++ m2) q
      = match lookupKP m1 q with
        | some b => some b
        | none => lookupKP m2 q := by
  induction m1 with
  | nil => rfl
  | cons a rest ih =>
    rcases a with ⟨ka, va⟩
    simp only [List.cons_append, lookupKP]
    by_cases h2 : ka = q
    · simp [h2]
    · simp [h2, ih]

/-- Assignment followed by lookup on a string-keyed object: the assigned
key now maps to the assigned value, other keys are unaffected. -/
lemma lookupKP_objInsert (m : List (String × String)) (k v q : String) :
    lookupKP (objInsert m k v) q = if q = k then some v else lookupKP m q := by
  unfold objInsert
  by_cases hmem : m.any (fun p => decide (p.1 = k)) = true
  · rw [if_pos hmem]
    rcases eq_or_ne q k with h | h
    · subst h
      rw [if_pos rfl, lookupKP_map_self]
      obtain ⟨b, hb⟩ := Option.isSome_iff_exists.mp (lookupKP_any_some m q hmem)
      rw [hb]
      rfl
    · rw [if_neg h, lookupKP_map_other m k v q h]
  · rw [if_neg hmem, lookupKP_append]
    rcases eq_or_ne q k with h | h
    · subst h
      have hnone := lookupKP_any_none m q (Bool.eq_false_iff.mpr hmem)
      simp [hnone, lookupKP]
    · rcases hm : lookupKP m q with _ | b
      · have hne : k ≠ q := Ne.symm h
        simp [lookupKP, hne, h]
      · simp [h]

/-- Lookup after the generatePreviewUrls fold: a type in the list maps to
its URL, anything else falls through to the initial object. -/
lemma lookupKP_foldl (types : List String) (f : String → String)
    (m : List (String × String)) (q : String) :
    lookupKP (types.foldl (fun acc t => objInsert acc t (f t)) m) q
      = if q ∈ types then some (f q) else lookupKP m q := by
  induction types generalizing m with
  | nil => simp
  | cons t ts ih =>
    simp only [List.foldl_cons, List.mem_cons]
    rw [ih]
    by_cases hts : q ∈ ts
    · simp [hts]
    · by_cases hqt : q = t
      · subst hqt
        simp [hts, lookupKP_objInsert]
      · simp [hts, hqt, lookupKP_objInsert]

/-- C1: for every payload (string or object) and every behavior of the
underlying HTTP calls, including thrown exceptions of any kind,
handleWebhook never throws: it is a total function whose every outcome is
either the success result or a structured failure result carrying an
error message; every exception escaping the try block is routed through
the catch mapping, which reports a non-CMPError Error with status 500 and
its message, and a thrown non-Error value with status 500 and the
fallback string. -/
theorem handleWebhook_never_throws :
    (∀ (h : HandlerState) (env : WebhookEnv) (st : Option TokenCache)
        (payload : WebhookInput),
      ((handleWebhook h env st payload).1.success = true ∧
        (handleWebhook h env st payload).1.status = 200 ∧
        (handleWebhook h env st payload).1.error = none) ∨
      ((handleWebhook h env st payload).1.success = false ∧
        (handleWebhook h env st payload).1.error ≠ none))
  ∧ (∀ (h : HandlerState) (env : WebhookEnv) (st : Option TokenCache)
        (payload : WebhookInput) (e : JSError) (inv : Bool) (st2 : Option TokenCache),
      handleWebhookTry h env st payload = (.error e, inv, st2) →
      handleWebhook h env st payload = (catchWebhookError e, inv, st2))
  ∧ (∀ m : String, catchWebhookError (.err m) = ⟨false, none, some m, 500⟩)
  ∧ catchWebhookError .nonError = ⟨false, none, some "Unknown error", 500⟩ := by
  refine ⟨?_, ?_, fun m => rfl, rfl⟩
  · intro h env st payload
    rcases hEq : handleWebhookTry h env st payload with ⟨out, inv, st2⟩
    cases out with
    | ok r =>
      have hres : handleWebhook h env st payload = (r, inv, st2) := by
        unfold handleWebhook
        rw [hEq]
      rw [hres]
      rcases handleWebhookTry_ok h env st payload r inv st2 hEq with h1 | h1 | ⟨pr, h1⟩
      · subst h1
        right
        simp
      · subst h1
        right
        simp
      · subst h1
        left
        simp
    | error e =>
      have hres : handleWebhook h env st payload = (catchWebhookError e, inv, st2) := by
        unfold handleWebhook
        rw [hEq]
      rw [hres]
      right
      simpa using catchWebhookError_shape e
  · intro h env st payload e inv st2 hEq
    unfold handleWebhook
    rw [hEq]

/-- Witness for C1: with a well-formed payload and an acknowledge-call
token fetch that rejects with a plain network Error, the run returns the
catch mapping of that exception (a structured failure, not a throw). -/
theorem handleWebhook_never_throws_witness :
    handleWebhook h0 envNetErr none (.obj goodPayload)
      = (catchWebhookError (.err "network down"), false, none) :=
  handleWebhook_never_throws.2.1 h0 envNetErr none (.obj goodPayload)
    (.err "network down") false none rfl

/-- C2: a token fetch at time now (with the cache empty or expired) whose
response is successful and well-formed caches the token with expiry
now + (expires_in - 300) seconds, expressed in milliseconds like now; in
particular for expires_in = 3600, hasCachedToken is true at
now + 3299 seconds and false at now + 3301 seconds. -/
theorem token_expiry_margin (st : Option TokenCache) (now : Int) (r : TokenHttpResp)
    (hmiss : hasCachedToken st now = false) (hok : r.ok = true)
    (htok : r.access_token ≠ "") (hexp : r.expires_in ≠ 0) :
    getAccessToken st now (.ok r)
      = (.ok r.access_token, some ⟨r.access_token, now + (r.expires_in - 300) * 1000⟩, 1)
  ∧ (r.expires_in = 3600 →
      hasCachedToken (some ⟨r.access_token, now + (r.expires_in - 300) * 1000⟩)
        (now + 3299 * 1000) = true
    ∧ hasCachedToken (some ⟨r.access_token, now + (r.expires_in - 300) * 1000⟩)
        (now + 3301 * 1000) = false) := by
  refine ⟨getAccessToken_miss st now r hmiss hok htok hexp, ?_⟩
  intro h36
  rw [h36]
  constructor
  · simp only [hasCachedToken, decide_eq_true_eq]
    omega
  · simp only [hasCachedToken, decide_eq_false_iff_not]
    omega

/-- Witness for C2 at a concrete fetch: empty cache, time 0, a successful
response with expires_in = 3600. -/
theorem token_expiry_margin_witness :
    getAccessToken none 0 (.ok ⟨true, 200, "", "tok", 3600⟩)
      = (.ok "tok", some ⟨"tok", 3300000⟩, 1)
  ∧ hasCachedToken (some ⟨"tok", 3300000⟩) 3299000 = true
  ∧ hasCachedToken (some ⟨"tok", 3300000⟩) 3301000 = false := by
  have h := token_expiry_margin none 0 ⟨true, 200, "", "tok", 3600⟩ rfl rfl
    (by decide) (by decide)
  have h2 := h.2 rfl
  norm_num at h h2
  exact ⟨h.1, h2.1, h2.2⟩

/-- C3: starting from a cache miss, a successful fetch caches a token;
a second call whose time is still before the cached expiry issues no
fetch and returns the cached token, so the two consecutive calls issue
exactly one fetch in total; and after clearCache every getAccessToken
call issues a fetch. -/
theorem token_cache_single_fetch (st0 : Option TokenCache) (now1 now2 : Int)
    (r : TokenHttpResp) (f2 : Except JSError TokenHttpResp)
    (hmiss : hasCachedToken st0 now1 = false) (hok : r.ok = true)
    (htok : r.access_token ≠ "") (hexp : r.expires_in ≠ 0)
    (hfresh : now2 < now1 + (r.expires_in - 300) * 1000) :
    (∃ c : TokenCache,
      getAccessToken st0 now1 (.ok r) = (.ok r.access_token, some c, 1)
      ∧ getAccessToken (some c) now2 f2 = (.ok c.accessToken, some c, 0))
  ∧ (∀ (stx : Option TokenCache) (nowx : Int) (fx : Except JSError TokenHttpResp),
      (getAccessToken (clearCache stx) nowx fx).2.2 = 1) := by
  constructor
  · refine ⟨⟨r.access_token, now1 + (r.expires_in - 300) * 1000⟩,
      getAccessToken_miss st0 now1 r hmiss hok htok hexp, ?_⟩
    simp [getAccessToken, hfresh]
  · intro stx nowx fx
    show (fetchToken none nowx fx).2.2 = 1
    exact fetchToken_count none nowx fx

/-- Witness for C3: concrete first fetch at time 0, second call at time
1000 whose own fetch environment rejects (and is never consulted), and a
clearCache call whose next fetch is counted. -/
theorem token_cache_single_fetch_witness :
    (∃ c : TokenCache,
      getAccessToken none 0 (.ok ⟨true, 200, "", "tok", 3600⟩) = (.ok "tok", some c, 1)
      ∧ getAccessToken (some c) 1000 (.error .nonError) = (.ok c.accessToken, some c, 0))
  ∧ (getAccessToken (clearCache (some ⟨"t", 99⟩)) 5 (.error .nonError)).2.2 = 1 := by
  have h := token_cache_single_fetch none 0 1000 ⟨true, 200, "", "tok", 3600⟩
    (.error .nonError) rfl rfl (by decide) (by decide) (by norm_num)
  exact ⟨h.1, h.2 (some ⟨"t", 99⟩) 5 (.error .nonError)⟩

/-- C4: for a payload that parses successfully, when the acknowledge
call obtains a token but its HTTP response is 403 with body "forbidden",
handleWebhook returns the failure result with status 403 and error
message "Failed to acknowledge preview", and submitPreviewCompletion is
never invoked (the invocation flag is false). -/
theorem ack_failure_skips_completion (h : HandlerState) (env : WebhookEnv)
    (st st1 : Option TokenCache) (v : JsValue) (pr : PreviewRequest) (tok : String)
    (n : Nat)
    (hparse : parseWebhookPayload v = .ok pr)
    (htok : getAccessToken st env.ackCall.now env.ackCall.tokenFetch = (.ok tok, st1, n))
    (hhttp : env.ackCall.http = .ok ⟨false, 403, "forbidden"⟩) :
    handleWebhook h env st (.obj v)
      = (⟨false, none, some "Failed to acknowledge preview", 403⟩, false, st1) := by
  have hack : acknowledgePreview st env.ackCall
      = (.error (.cmp ⟨"Failed to acknowledge preview", some 403, some "forbidden"⟩), st1) := by
    unfold acknowledgePreview apiCall
    rw [htok, hhttp]
    rfl
  have htry : handleWebhookTry h env st (.obj v)
      = (.error (.cmp ⟨"Failed to acknowledge preview", some 403, some "forbidden"⟩),
          false, st1) := by
    show handleParsed h env st v = _
    unfold handleParsed
    rw [hparse, hack]
  unfold handleWebhook
  rw [htry]
  rfl

/-- Witness for C4: the concrete well-formed payload against the
environment whose acknowledge endpoint answers 403 "forbidden". -/
theorem ack_failure_skips_completion_witness :
    handleWebhook h0 env403 none (.obj goodPayload)
      = (⟨false, none, some "Failed to acknowledge preview", 403⟩, false,
          some ⟨"tok", 3300000⟩) :=
  ack_failure_skips_completion h0 env403 none (some ⟨"tok", 3300000⟩) goodPayload
    ⟨.str "c1", .str "v1", .str "p1", .str "u1", .str "h1"⟩ "tok" 1 rfl rfl rfl

/-- C5 counterexample: on the concrete payload missing
content_body.fields_version.content_hash, parseWebhookPayload throws a
CMPError whose statusCode is 400 and whose details string echoes all five
extracted values, but whose message is the fixed string
"Missing required fields in webhook payload", which does not contain the
echo (it does not even contain the substring "contentId="): the claim
that the message names the missing fields by echoing the five extracted
values is false. -/
theorem parse_missing_message_counterexample :
    parseWebhookPayload missingHashPayload
      = .error (.cmp ⟨"Missing required fields in webhook payload", some 400,
          some "contentId=c1, versionId=v1, previewId=p1, updatedBy=u1, contentHash=undefined"⟩)
  ∧ strContainsSub "Missing required fields in webhook payload" "contentId=" = false :=
  ⟨rfl, rfl⟩

/-- C5 as amended: whenever field extraction succeeds and some extracted
field is falsy, parseWebhookPayload throws a CMPError with HTTP status
400 whose fixed message is "Missing required fields in webhook payload"
and whose details string echoes all five extracted values (including
empties). -/
theorem parse_missing_fields_details (v : JsValue) (r : PreviewRequest)
    (hx : extractFields v = .ok r) (hmiss : anyMissing r = true) :
    parseWebhookPayload v
      = .error (.cmp ⟨"Missing required fields in webhook payload", some 400,
          some (echoString r.contentId r.versionId r.previewId r.updatedBy
            r.contentHash)⟩) := by
  unfold parseWebhookPayload
  rw [hx]
  simp [hmiss]

/-- Witness for the amended C5 at the concrete payload missing the
content hash. -/
theorem parse_missing_fields_details_witness :
    parseWebhookPayload missingHashPayload
      = .error (.cmp ⟨"Missing required fields in webhook payload", some 400,
          some (echoString (.str "c1") (.str "v1") (.str "p1") (.str "u1") .undefined)⟩) :=
  parse_missing_fields_details missingHashPayload
    ⟨.str "c1", .str "v1", .str "p1", .str "u1", .undefined⟩ rfl rfl

/-- C6: with the default configuration, generatePreviewUrls produces
exactly the five entries keyed default, mobile, desktop, tablet, signage
in configuration order; and for every configured type list, the resulting
mapping assigns each listed type the URL previewUrl/preview/type/contentId
(later duplicate occurrences overwriting earlier ones, which changes
nothing observable since the value depends only on the key) and contains
no other key. -/
theorem generatePreviewUrls_spec :
    (∀ url cid : String, (generatePreviewUrls defaultPreviewTypes url cid).map Prod.fst
        = ["default", "mobile", "desktop", "tablet", "signage"])
  ∧ (∀ (types : List String) (url cid q : String),
      lookupKP (generatePreviewUrls types url cid) q
        = if q ∈ types then some (url ++ "/preview/" ++ q ++ "/" ++ cid) else none) := by
  constructor
  · intro url cid
    rfl
  · intro types url cid q
    have h := lookupKP_foldl types (fun t => url ++ "/preview/" ++ t ++ "/" ++ cid) [] q
    simpa [generatePreviewUrls, lookupKP] using h

/-- C7: handleWebhook on the empty string returns the Empty payload
failure with status 400, and on any non-empty string the host JSON parser
rejects, the Invalid JSON payload failure with status 400. -/
theorem string_payload_validation (h : HandlerState) (env : WebhookEnv)
    (st : Option TokenCache) :
    handleWebhook h env st (.str "") = (⟨false, none, some "Empty payload", 400⟩, false, st)
  ∧ (∀ s : String, s ≠ "" → env.parseJson s = none →
      handleWebhook h env st (.str s)
        = (⟨false, none, some "Invalid JSON payload", 400⟩, false, st)) := by
  constructor
  · rfl
  · intro s hs hp
    unfold handleWebhook handleWebhookTry
    simp [hs, hp]

/-- Witness for C7: a concrete unparseable string against an environment
whose JSON parser rejects everything. -/
theorem string_payload_validation_witness :
    handleWebhook h0 env403 none (.str "oops")
      = (⟨false, none, some "Invalid JSON payload", 400⟩, false, none) :=
  (string_payload_validation h0 env403 none).2 "oops" (by decide) rfl

/-- Component part of C8 for the OAuth client constructor. -/
lemma mkOAuthClient_empty (cfg : CMPOAuthConfig)
    (hc : cfg.clientId = "" ∨ cfg.clientSecret = "" ∨ cfg.authServerUrl = "") :
    ∃ m : String, mkOAuthClient cfg = .error (.err m) := by
  unfold mkOAuthClient
  split
  · exact ⟨_, rfl⟩
  next h1 =>
    split
    · exact ⟨_, rfl⟩
    next h2 =>
      split
      · exact ⟨_, rfl⟩
      next h3 =>
        rcases hc with h | h | h <;> contradiction

/-- Component part of C8 for the API client constructor. -/
lemma mkClient_empty (cfg : CMPClientConfig)
    (hc : cfg.clientId = "" ∨ cfg.clientSecret = "" ∨ cfg.authServerUrl = ""
      ∨ cfg.apiBaseUrl = "") :
    ∃ m : String, mkClient cfg = .error (.err m) := by
  unfold mkClient
  split
  · exact ⟨_, rfl⟩
  next h1 =>
    rcases hc with h | h | h | h
    · exact mkOAuthClient_empty cfg.toCMPOAuthConfig (Or.inl h)
    · exact mkOAuthClient_empty cfg.toCMPOAuthConfig (Or.inr (Or.inl h))
    · exact mkOAuthClient_empty cfg.toCMPOAuthConfig (Or.inr (Or.inr h))
    · contradiction

/-- Component part of C8 for the webhook handler constructor. -/
lemma mkWebhookHandler_empty (cfg : CMPWebhookConfig)
    (hc : cfg.clientId = "" ∨ cfg.clientSecret = "" ∨ cfg.authServerUrl = ""
      ∨ cfg.apiBaseUrl = "" ∨ cfg.previewUrl = "") :
    ∃ m : String, mkWebhookHandler cfg = .error (.err m) := by
  unfold mkWebhookHandler
  split
  · exact ⟨_, rfl⟩
  next h1 =>
    have hcc : cfg.clientId = "" ∨ cfg.clientSecret = "" ∨ cfg.authServerUrl = ""
        ∨ cfg.apiBaseUrl = "" := by
      rcases hc with h | h | h | h | h
      · exact Or.inl h
      · exact Or.inr (Or.inl h)
      · exact Or.inr (Or.inr (Or.inl h))
      · exact Or.inr (Or.inr (Or.inr h))
      · exact absurd h h1
    obtain ⟨m, hm⟩ := mkClient_empty cfg.toCMPClientConfig hcc
    rw [hm]
    exact ⟨m, rfl⟩

/-- C8: constructing the OAuth client, the API client or the webhook
handler with an empty string in any required configuration field
applicable to that component fails at construction time with a thrown
Error (the ConfigurationError of the design); the constructors perform no
network call (they are pure functions of the configuration). -/
theorem constructor_validation :
    (∀ cfg : CMPOAuthConfig,
      cfg.clientId = "" ∨ cfg.clientSecret = "" ∨ cfg.authServerUrl = "" →
      ∃ m : String, mkOAuthClient cfg = .error (.err m))
  ∧ (∀ cfg : CMPClientConfig,
      cfg.clientId = "" ∨ cfg.clientSecret = "" ∨ cfg.authServerUrl = ""
        ∨ cfg.apiBaseUrl = "" →
      ∃ m : String, mkClient cfg = .error (.err m))
  ∧ (∀ cfg : CMPWebhookConfig,
      cfg.clientId = "" ∨ cfg.clientSecret = "" ∨ cfg.authServerUrl = ""
        ∨ cfg.apiBaseUrl = "" ∨ cfg.previewUrl = "" →
      ∃ m : String, mkWebhookHandler cfg = .error (.err m)) :=
  ⟨mkOAuthClient_empty, mkClient_empty, mkWebhookHandler_empty⟩

/-- Witness for C8: one concrete empty-field configuration per
component. -/
theorem constructor_validation_witness :
    (∃ m : String, mkOAuthClient ⟨"", "s", "a"⟩ = .error (.err m))
  ∧ (∃ m : String, mkClient ⟨⟨"i", "s", "a"⟩, ""⟩ = .error (.err m))
  ∧ (∃ m : String, mkWebhookHandler ⟨⟨⟨"i", "s", "a"⟩, "b"⟩, "", none⟩
      = .error (.err m)) :=
  ⟨constructor_validation.1 ⟨"", "s", "a"⟩ (Or.inl rfl),
   constructor_validation.2.1 ⟨⟨"i", "s", "a"⟩, ""⟩ (Or.inr (Or.inr (Or.inr rfl))),
   constructor_validation.2.2 ⟨⟨⟨"i", "s", "a"⟩, "b"⟩, "", none⟩
     (Or.inr (Or.inr (Or.inr (Or.inr rfl))))⟩

/-- C9: a configuration that explicitly supplies previewTypes as the
empty list constructs a handler whose preview type list is empty (the
default list is substituted only when the field is absent or falsy), so
generatePreviewUrls yields the empty mapping for every contentId, and
every successful handleWebhook result carries zero keyedPreviews
entries. -/
theorem explicit_empty_previewTypes (cfg : CMPWebhookConfig) (hs : HandlerState)
    (hty : cfg.previewTypes = some [])
    (hmk : mkWebhookHandler cfg = .ok hs) :
    hs.previewTypes = []
  ∧ (∀ url cid : String, generatePreviewUrls hs.previewTypes url cid = [])
  ∧ (∀ (env : WebhookEnv) (st : Option TokenCache) (payload : WebhookInput)
        (res : WebhookHandlerResult) (inv : Bool) (st2 : Option TokenCache),
      handleWebhook hs env st payload = (res, inv, st2) → res.success = true →
      ∃ d : WebhookData, res.data = some d ∧ d.keyedPreviews = []) := by
  have hempty : hs.previewTypes = [] := by
    unfold mkWebhookHandler at hmk
    split at hmk
    · simp at hmk
    · split at hmk
      · simp at hmk
      · simp only [Except.ok.injEq] at hmk
        rw [← hmk, hty]
        rfl
  refine ⟨hempty, ?_, ?_⟩
  · intro url cid
    rw [hempty]
    rfl
  · intro env st payload res inv st2 hres hsucc
    obtain ⟨pr, hdata⟩ := handleWebhook_success_data hs env st payload res inv st2
      hres hsucc
    refine ⟨_, hdata, ?_⟩
    rw [hempty]
    rfl

/-- Witness for C9: the concrete configuration carrying previewTypes =
some [] constructs the handler with the empty list. -/
theorem explicit_empty_previewTypes_witness :
    (⟨"prev", ([] : List String)⟩ : HandlerState).previewTypes = [] :=
  (explicit_empty_previewTypes cfgEmptyTypes ⟨"prev", []⟩ rfl rfl).1

/-- C10: the empty-payload and invalid-JSON checks apply only to string
payloads: a non-string payload flows directly into field extraction, and
in particular a null payload produces the generic failure with status 500
(the TypeError thrown by reading payload.data on null, caught at the top
level), not a 400 validation failure. -/
theorem nonstring_payload_generic_error :
    (∀ (h : HandlerState) (env : WebhookEnv) (st : Option TokenCache) (v : JsValue),
      handleWebhook h env st (.obj v)
        = (match handleParsed h env st v with
           | (.ok r, inv, st2) => (r, inv, st2)
           | (.error e, inv, st2) => (catchWebhookError e, inv, st2)))
  ∧ (∀ (h : HandlerState) (env : WebhookEnv) (st : Option TokenCache),
      (handleWebhook h env st (.obj .null)).1
        = ⟨false, none, some "Cannot read properties of null (reading data)", 500⟩) := by
  constructor
  · intro h env st v
    rfl
  · intro h env st
    rfl

end OptiCmp
